import Mathlib

/-
Verification of the Lavapy repository (files src/lavapy/tracks.py,
src/lavapy/stats.py, src/pylink/websocket.py) against its specification.
The Python code is shallowly embedded: dynamically typed dictionary
payloads become association lists over a JSON-like value type, Python
exceptions become an explicit error type returned through Except, and
the asynchronous collaborators (the node track lookup, the socket
transport) become explicit function parameters and request/write logs.
-/

namespace Lavapy

/-- Python exceptions that the embedded code can raise, plus the
NotConnectedError class named by the error taxonomy of the spec (the
source itself never defines or raises such a class; the constructor is
present so that statements about it can be made). -/
inductive PyExc where
  | attributeError (attr : String)
  | keyError (key : String)
  | indexError
  | typeError
  | notConnectedError
  deriving DecidableEq, Repr

/-- JSON-like values carried inside the dynamically typed payload
dictionaries. The Python code never inspects the leaf values it copies
out of a payload, so leaves are separated only as far as the claims
need. -/
inductive JVal where
  | int (n : Int)
  | str (s : String)
  | bool (b : Bool)
  | obj (fields : List (String × JVal))
  deriving Repr

/-- A Python dictionary with string keys, as an association list. -/
abbrev Jobj := List (String × JVal)

/-- Dictionary key lookup, first match wins (Python dict keys are
unique, so first match is the only match). -/
def jfind : Jobj → String → Option JVal
  | [], _ => none
  | (k, v) :: rest, key => if k = key then some v else jfind rest key

/-- Python subscript d[k] on a dictionary: the value, or KeyError. -/
def jGetItem (d : Jobj) (k : String) : Except PyExc JVal :=
  match jfind d k with
  | some v => Except.ok v
  | none => Except.error (PyExc.keyError k)

/-- Python d.get(k, default) on a dictionary. -/
def jGetDefault (d : Jobj) (k : String) (dflt : JVal) : JVal :=
  (jfind d k).getD dflt

/-- Python subscript v[k] on an arbitrary value: only dictionaries
support string subscripts, everything else raises TypeError. -/
def JVal.getItem : JVal → String → Except PyExc JVal
  | JVal.obj d, k => jGetItem d k
  | _, _ => Except.error PyExc.typeError

/-- Python v.get(k, default) on an arbitrary value: only dictionaries
have a get method, everything else raises AttributeError. -/
def JVal.getDefault : JVal → String → JVal → Except PyExc JVal
  | JVal.obj d, k, dflt => Except.ok (jGetDefault d k dflt)
  | _, _, _ => Except.error (PyExc.attributeError "get")

/-- Opaque handle for the Node collaborator (src/lavapy/node.py is not
part of the sources; Stats only stores the reference). -/
structure Node where
  nodeId : Nat
  deriving DecidableEq, Repr

/-- Stats, from src/lavapy/stats.py. Field values are stored exactly as
found in the payload (the Python constructor performs no conversion). -/
structure Stats where
  node : Node
  uptime : JVal
  players : JVal
  playingPlayers : JVal
  memoryReservable : JVal
  memoryUsed : JVal
  memoryFree : JVal
  memoryAllocated : JVal
  cpuCores : JVal
  systemLoad : JVal
  lavalinkLoad : JVal
  framesSent : JVal
  framesDeficit : JVal
  framesNulled : JVal
  deriving Repr

/-- Stats.__init__ from src/lavapy/stats.py, line by line: required
fields are read with the raising subscript, the frameStats block is
read with get and per-field defaults of -1. -/
def Stats.init (node : Node) (data : Jobj) : Except PyExc Stats := do
  let uptime ← jGetItem data "uptime"
  let players ← jGetItem data "players"
  let playingPlayers ← jGetItem data "playingPlayers"
  let memory ← jGetItem data "memory"
  let memoryReservable ← memory.getItem "reservable"
  let memoryUsed ← memory.getItem "used"
  let memoryFree ← memory.getItem "free"
  let memoryAllocated ← memory.getItem "allocated"
  let cpu ← jGetItem data "cpu"
  let cpuCores ← cpu.getItem "cores"
  let systemLoad ← cpu.getItem "systemLoad"
  let lavalinkLoad ← cpu.getItem "lavalinkLoad"
  let frameStats := jGetDefault data "frameStats" (JVal.obj [])
  let framesSent ← frameStats.getDefault "sent" (JVal.int (-1))
  let framesDeficit ← frameStats.getDefault "deficit" (JVal.int (-1))
  let framesNulled ← frameStats.getDefault "nulled" (JVal.int (-1))
  pure { node, uptime, players, playingPlayers, memoryReservable, memoryUsed,
         memoryFree, memoryAllocated, cpuCores, systemLoad, lavalinkLoad,
         framesSent, framesDeficit, framesNulled }

/-- Track, from src/lavapy/tracks.py: the raw id and info plus the
fields the constructor copies out of info. -/
structure Track where
  id : String
  info : Jobj
  identifier : JVal
  isSeekable : JVal
  author : JVal
  length : JVal
  isStream : JVal
  type : JVal
  title : JVal
  uri : JVal
  deriving Repr

/-- Track.__init__ from src/lavapy/tracks.py: every field is read with
the raising subscript, in source order. -/
def Track.init (id : String) (info : Jobj) : Except PyExc Track := do
  let identifier ← jGetItem info "identifier"
  let isSeekable ← jGetItem info "isSeekable"
  let author ← jGetItem info "author"
  let length ← jGetItem info "length"
  let isStream ← jGetItem info "isStream"
  let type ← jGetItem info "sourceName"
  let title ← jGetItem info "title"
  let uri ← jGetItem info "uri"
  pure { id, info, identifier, isSeekable, author, length, isStream, type,
         title, uri }

/-- MultiTrack from src/lavapy/tracks.py. -/
structure MultiTrack where
  name : String
  tracks : List Track
  deriving Repr

/-- The concrete Playable classes of src/lavapy/tracks.py on which the
classmethod search can be invoked. -/
inductive ResourceCls where
  | youtubeTrack
  | youtubeMusicTrack
  | soundcloudTrack
  | youtubePlaylist
  deriving DecidableEq, Repr

/-- The class attribute lookup cls._searchType. YoutubeTrack,
YoutubeMusicTrack and SoundcloudTrack assign the attribute in their
class bodies; YoutubePlaylist does not and Playable only annotates it
without assigning, so the lookup fails there (AttributeError). -/
def searchType : ResourceCls → Option String
  | ResourceCls.youtubeTrack => some "ytsearch"
  | ResourceCls.youtubeMusicTrack => some "ytmsearch"
  | ResourceCls.soundcloudTrack => some "scsearch"
  | ResourceCls.youtubePlaylist => none

/-- PartialResource from src/lavapy/tracks.py: the three constructor
arguments stored verbatim; the cls, query and search properties return
the stored fields. -/
structure PartialResource where
  cls : ResourceCls
  query : String
  search : Bool
  deriving DecidableEq, Repr

/-- What the node getTracks collaborator may yield when it yields
anything: a decoded list of tracks or a single multi-track container
(spec section 6). -/
inductive LookupRes where
  | list (ts : List Track)
  | multi (m : MultiTrack)
  deriving Repr

/-- Possible return values of Playable.search (Python returns None, a
Track, a list of tracks, a MultiTrack or a PartialResource). -/
inductive SearchRes where
  | noRes
  | track (t : Track)
  | list (ts : List Track)
  | multi (m : MultiTrack)
  | part (p : PartialResource)
  deriving Repr

/-- A lookup result viewed as a search return value. -/
def LookupRes.toSearchRes : LookupRes → SearchRes
  | LookupRes.list ts => SearchRes.list ts
  | LookupRes.multi m => SearchRes.multi m

/-- An optional lookup result viewed as a search return value (Python
returns None when the lookup yielded None). -/
def optToSearchRes : Option LookupRes → SearchRes
  | none => SearchRes.noRes
  | some r => LookupRes.toSearchRes r

/-- The tail of Playable.search after the lookup has returned: Python
code, with tracks the lookup result:
if tracks is not None: if search and returnFirst: return tracks[0];
return tracks. Subscripting an empty list raises IndexError and
subscripting a MultiTrack raises TypeError. -/
def pickTracks (srch returnFirst : Bool) (tracks : Option LookupRes) :
    Except PyExc SearchRes :=
  match tracks with
  | none => Except.ok SearchRes.noRes
  | some r =>
    if srch && returnFirst then
      match r with
      | LookupRes.list [] => Except.error PyExc.indexError
      | LookupRes.list (t :: _) => Except.ok (SearchRes.track t)
      | LookupRes.multi _ => Except.error PyExc.typeError
    else Except.ok r.toSearchRes

/-- Playable.search from src/lavapy/tracks.py. The node collaborator is
the getTracks function; the second component of the result is the list
of query strings passed to getTracks (the network requests made). With
srch true the query is first prefixed with the class search tag (an
AttributeError if the class has none), with prtl true a PartialResource
is returned before any lookup, otherwise the lookup result is
post-processed by pickTracks. -/
def Playable.search (cls : ResourceCls) (getTracks : String → Option LookupRes)
    (query : String) (srch returnFirst prtl : Bool) :
    Except PyExc SearchRes × List String :=
  match (if srch then
           match searchType cls with
           | some tag => Except.ok (tag ++ ":" ++ query)
           | none => Except.error (PyExc.attributeError "_searchType")
         else Except.ok query : Except PyExc String) with
  | Except.error e => (Except.error e, [])
  | Except.ok q =>
    if prtl then
      (Except.ok (SearchRes.part { cls := cls, query := q, search := srch }), [])
    else
      (pickTracks srch returnFirst (getTracks q), [q])

/-- The request issued by Websocket.connect in src/pylink/websocket.py:
target URL, header set and keepalive interval. -/
structure ConnectRequest where
  url : String
  headers : List (String × String)
  heartbeat : Int
  deriving DecidableEq, Repr

/-- Websocket from src/pylink/websocket.py: connection parameters plus
the connection handle, which is None until connect completes. -/
structure Websocket where
  host : String
  port : Int
  password : String
  userID : String
  connection : Option Unit
  deriving Repr

/-- Websocket.__init__: stores the parameters and sets _connection to
None; the connect coroutine is only scheduled, so in the state returned
by the constructor it has not yet run. -/
def Websocket.init (host : String) (port : Int) (password userID : String) :
    Websocket :=
  { host, port, password, userID, connection := none }

/-- The request built by Websocket.connect: the ws URL interpolated
from host and port, the three authentication headers and heartbeat 60. -/
def Websocket.connectRequest (ws : Websocket) : ConnectRequest :=
  { url := "ws://" ++ ws.host ++ ":" ++ toString ws.port,
    headers := [("Authorization", ws.password),
                ("User-Id", ws.userID),
                ("Client-Name", "Pylink")],
    heartbeat := 60 }

/-- Websocket.connect: issues the connect request and stores the opened
connection in the state. -/
def Websocket.connect (ws : Websocket) : ConnectRequest × Websocket :=
  (ws.connectRequest, { ws with connection := some () })

/-- Websocket.send: awaits self._connection.send_json(payload). When
_connection is still None this raises AttributeError while evaluating
the attribute, before anything is written; otherwise the payload is
written. The second component is the list of payloads written. -/
def Websocket.send (ws : Websocket) (payload : Jobj) :
    Except PyExc Unit × List Jobj :=
  match ws.connection with
  | none => (Except.error (PyExc.attributeError "send_json"), [])
  | some _ => (Except.ok (), [payload])

/-- All required fields of a statistics payload are present: the
top-level keys, the four memory keys and the three cpu keys (everything
Stats.__init__ reads with the raising subscript). -/
def statsRequired (d : Jobj) : Prop :=
  (jfind d "uptime").isSome ∧ (jfind d "players").isSome ∧
  (jfind d "playingPlayers").isSome ∧
  (∃ m, jfind d "memory" = some (JVal.obj m) ∧
    (jfind m "reservable").isSome ∧ (jfind m "used").isSome ∧
    (jfind m "free").isSome ∧ (jfind m "allocated").isSome) ∧
  (∃ c, jfind d "cpu" = some (JVal.obj c) ∧
    (jfind c "cores").isSome ∧ (jfind c "systemLoad").isSome ∧
    (jfind c "lavalinkLoad").isSome)

/-- All required fields of a track info payload are present (everything
Track.__init__ reads with the raising subscript). -/
def trackRequired (info : Jobj) : Prop :=
  (jfind info "identifier").isSome ∧ (jfind info "isSeekable").isSome ∧
  (jfind info "author").isSome ∧ (jfind info "length").isSome ∧
  (jfind info "isStream").isSome ∧ (jfind info "sourceName").isSome ∧
  (jfind info "title").isSome ∧ (jfind info "uri").isSome

/-- A concrete track used as witness data. -/
def sampleTrack : Track :=
  { id := "b64token", info := [], identifier := JVal.str "vid",
    isSeekable := JVal.bool true, author := JVal.str "auth",
    length := JVal.int 3, isStream := JVal.bool false,
    type := JVal.str "youtube", title := JVal.str "song",
    uri := JVal.str "http" }

/-- A concrete lookup collaborator that knows one query. -/
def sampleLookup : String → Option LookupRes := fun q =>
  if q = "ytsearch:abc" then some (LookupRes.list [sampleTrack]) else none

/-- A concrete statistics payload with all required fields and no
frameStats block. -/
def statsData0 : Jobj :=
  [("uptime", JVal.int 1), ("players", JVal.int 2), ("playingPlayers", JVal.int 3),
   ("memory", JVal.obj [("reservable", JVal.int 4), ("used", JVal.int 5),
                        ("free", JVal.int 6), ("allocated", JVal.int 7)]),
   ("cpu", JVal.obj [("cores", JVal.int 8), ("systemLoad", JVal.int 9),
                     ("lavalinkLoad", JVal.int 10)])]

/-- The decode of statsData0. -/
def stats0 : Stats :=
  { node := { nodeId := 0 }, uptime := JVal.int 1, players := JVal.int 2,
    playingPlayers := JVal.int 3, memoryReservable := JVal.int 4,
    memoryUsed := JVal.int 5, memoryFree := JVal.int 6,
    memoryAllocated := JVal.int 7, cpuCores := JVal.int 8,
    systemLoad := JVal.int 9, lavalinkLoad := JVal.int 10,
    framesSent := JVal.int (-1), framesDeficit := JVal.int (-1),
    framesNulled := JVal.int (-1) }

/-- A concrete track info payload with all required fields. -/
def trackInfo0 : Jobj :=
  [("identifier", JVal.str "dQw"), ("isSeekable", JVal.bool true),
   ("author", JVal.str "a"), ("length", JVal.int 212),
   ("isStream", JVal.bool false), ("sourceName", JVal.str "youtube"),
   ("title", JVal.str "t"), ("uri", JVal.str "u")]

/-- The decode of trackInfo0 under id b64. -/
def track0 : Track :=
  { id := "b64", info := trackInfo0, identifier := JVal.str "dQw",
    isSeekable := JVal.bool true, author := JVal.str "a",
    length := JVal.int 212, isStream := JVal.bool false,
    type := JVal.str "youtube", title := JVal.str "t", uri := JVal.str "u" }

/-! Helper lemmas about the embedded dictionary operations. -/

theorem exceptBind_ok {α β : Type} {x : Except PyExc α} {f : α → Except PyExc β}
    {b : β} (h : x >>= f = Except.ok b) :
    ∃ a, x = Except.ok a ∧ f a = Except.ok b := by
  cases x with
  | error e => exact absurd h (by simp [Bind.bind, Except.bind])
  | ok a => exact ⟨a, rfl, h⟩

theorem jGetItem_ok {d : Jobj} {k : String} {v : JVal} :
    jGetItem d k = Except.ok v ↔ jfind d k = some v := by
  unfold jGetItem
  cases jfind d k <;> simp

theorem jvalGetItem_ok {x : JVal} {k : String} {v : JVal} :
    JVal.getItem x k = Except.ok v ↔
      ∃ d, x = JVal.obj d ∧ jfind d k = some v := by
  cases x <;> simp [JVal.getItem, jGetItem_ok]

theorem jvalGetItem_obj {d : List (String × JVal)} {k : String} {v : JVal} :
    JVal.getItem (JVal.obj d) k = Except.ok v ↔ jfind d k = some v := by
  simp [JVal.getItem, jGetItem_ok]

/-! Claim theorems. -/

/-- Claim C1, counterexample: send on a freshly constructed Websocket
fails with AttributeError (from evaluating send_json on the absent
connection), which is not a NotConnectedError-class error; the source
never defines such a class. The write log is empty. -/
theorem claim_C1_counterexample :
    Websocket.send (Websocket.init "localhost" 2333 "pass" "1234") [] =
      (Except.error (PyExc.attributeError "send_json"), []) ∧
    PyExc.attributeError "send_json" ≠ PyExc.notConnectedError :=
  ⟨rfl, by decide⟩

/-- Claim C1, amended: for every configuration and payload, send on a
freshly constructed Websocket (whose background connect task has not
completed, so the connection field is still None) raises an
AttributeError and performs no write to the connection. -/
theorem claim_C1_amended (host : String) (port : Int) (password userID : String)
    (payload : Jobj) :
    Websocket.send (Websocket.init host port password userID) payload =
      (Except.error (PyExc.attributeError "send_json"), []) := rfl

/-- Claim C2, counterexample: invoking search on the YoutubePlaylist
class with useQuery true and partial true raises AttributeError (the
class defines no search tag) instead of returning a PartialResource,
though still without any lookup request. -/
theorem claim_C2_counterexample :
    Playable.search ResourceCls.youtubePlaylist (fun _ => none) "abc"
        true true true =
      (Except.error (PyExc.attributeError "_searchType"), []) ∧
    (Except.error (PyExc.attributeError "_searchType") :
        Except PyExc SearchRes) ≠
      Except.ok (SearchRes.part
        { cls := ResourceCls.youtubePlaylist, query := "abc", search := true }) :=
  ⟨rfl, fun h => Except.noConfusion h⟩

/-- Claim C2, amended: with partial true, search performs no lookup
request and returns a PartialResource carrying the invoked class, the
query (prefixed with the class search tag exactly when useQuery is
true) and the useQuery flag — provided the invoked class defines a
search tag or useQuery is false; on a class without a search tag (the
playlist variant) and useQuery true it instead raises AttributeError,
still without any lookup request. -/
theorem claim_C2_amended (cls1 cls2 : ResourceCls) (tag : String)
    (lk1 lk2 : String → Option LookupRes) (query : String) (returnFirst : Bool)
    (htag : searchType cls1 = some tag) (hnone : searchType cls2 = none) :
    Playable.search cls1 lk1 query true returnFirst true =
      (Except.ok (SearchRes.part
        { cls := cls1, query := tag ++ ":" ++ query, search := true }), []) ∧
    Playable.search cls1 lk1 query false returnFirst true =
      (Except.ok (SearchRes.part
        { cls := cls1, query := query, search := false }), []) ∧
    Playable.search cls2 lk2 query false returnFirst true =
      (Except.ok (SearchRes.part
        { cls := cls2, query := query, search := false }), []) ∧
    Playable.search cls2 lk2 query true returnFirst true =
      (Except.error (PyExc.attributeError "_searchType"), []) := by
  refine ⟨?_, ?_, ?_, ?_⟩ <;> simp [Playable.search, htag, hnone]

/-- Claim C2, witness of the amended theorem at a concrete input. -/
theorem claim_C2_witness :
    Playable.search ResourceCls.youtubeTrack (fun _ => none) "q1" true true true =
      (Except.ok (SearchRes.part
        { cls := ResourceCls.youtubeTrack, query := "ytsearch" ++ ":" ++ "q1",
          search := true }), []) ∧
    Playable.search ResourceCls.youtubeTrack (fun _ => none) "q1" false true true =
      (Except.ok (SearchRes.part
        { cls := ResourceCls.youtubeTrack, query := "q1", search := false }), []) ∧
    Playable.search ResourceCls.youtubePlaylist (fun _ => none) "q1" false true true =
      (Except.ok (SearchRes.part
        { cls := ResourceCls.youtubePlaylist, query := "q1", search := false }), []) ∧
    Playable.search ResourceCls.youtubePlaylist (fun _ => none) "q1" true true true =
      (Except.error (PyExc.attributeError "_searchType"), []) :=
  claim_C2_amended ResourceCls.youtubeTrack ResourceCls.youtubePlaylist "ytsearch"
    (fun _ => none) (fun _ => none) "q1" true rfl rfl

/-- Claim C3, counterexample: a lookup collaborator that returns an
empty list makes search with useQuery true and returnFirst true raise
IndexError (subscripting the empty list) instead of returning None. -/
theorem claim_C3_counterexample :
    (Playable.search ResourceCls.youtubeTrack (fun _ => some (LookupRes.list []))
        "abc" true true false).1 = Except.error PyExc.indexError ∧
    (Except.error PyExc.indexError : Except PyExc SearchRes) ≠
      Except.ok SearchRes.noRes :=
  ⟨rfl, fun h => Except.noConfusion h⟩

/-- Claim C3, amended: a lookup returning None makes search return
None; a lookup returning an empty list makes search return the empty
list when useQuery and returnFirst are not both true, and raise
IndexError when they are. -/
theorem claim_C3_amended (cls : ResourceCls) (tag : String)
    (lkN lkE : String → Option LookupRes) (query : String) (returnFirst : Bool)
    (htag : searchType cls = some tag)
    (hN : lkN query = none) (hNs : lkN (tag ++ ":" ++ query) = none)
    (hE : lkE query = some (LookupRes.list []))
    (hEs : lkE (tag ++ ":" ++ query) = some (LookupRes.list [])) :
    (Playable.search cls lkN query false returnFirst false).1 =
      Except.ok SearchRes.noRes ∧
    (Playable.search cls lkN query true returnFirst false).1 =
      Except.ok SearchRes.noRes ∧
    (Playable.search cls lkE query false returnFirst false).1 =
      Except.ok (SearchRes.list []) ∧
    (Playable.search cls lkE query true false false).1 =
      Except.ok (SearchRes.list []) ∧
    (Playable.search cls lkE query true true false).1 =
      Except.error PyExc.indexError := by
  refine ⟨?_, ?_, ?_, ?_, ?_⟩ <;>
    simp [Playable.search, htag, hN, hNs, hE, hEs, pickTracks,
      LookupRes.toSearchRes]

/-- Claim C3, witness of the amended theorem at a concrete input. -/
theorem claim_C3_witness :
    (Playable.search ResourceCls.youtubeTrack (fun _ => none) "q0"
        false true false).1 = Except.ok SearchRes.noRes ∧
    (Playable.search ResourceCls.youtubeTrack (fun _ => none) "q0"
        true true false).1 = Except.ok SearchRes.noRes ∧
    (Playable.search ResourceCls.youtubeTrack
        (fun _ => some (LookupRes.list [])) "q0" false true false).1 =
      Except.ok (SearchRes.list []) ∧
    (Playable.search ResourceCls.youtubeTrack
        (fun _ => some (LookupRes.list [])) "q0" true false false).1 =
      Except.ok (SearchRes.list []) ∧
    (Playable.search ResourceCls.youtubeTrack
        (fun _ => some (LookupRes.list [])) "q0" true true false).1 =
      Except.error PyExc.indexError :=
  claim_C3_amended ResourceCls.youtubeTrack "ytsearch" (fun _ => none)
    (fun _ => some (LookupRes.list [])) "q0" true rfl rfl rfl rfl rfl

/-- Claim C4: when the lookup returns a non-empty list and useQuery is
true with partial false, search with returnFirst true returns exactly
the first element and with returnFirst false the full list unchanged. -/
theorem claim_C4 (cls : ResourceCls) (tag : String)
    (getTracks : String → Option LookupRes) (query : String)
    (t : Track) (ts : List Track)
    (htag : searchType cls = some tag)
    (hlk : getTracks (tag ++ ":" ++ query) = some (LookupRes.list (t :: ts))) :
    (Playable.search cls getTracks query true true false).1 =
      Except.ok (SearchRes.track t) ∧
    (Playable.search cls getTracks query true false false).1 =
      Except.ok (SearchRes.list (t :: ts)) := by
  constructor <;>
    simp [Playable.search, htag, hlk, pickTracks, LookupRes.toSearchRes]

/-- Claim C4, witness at a concrete one-element lookup. -/
theorem claim_C4_witness :
    (Playable.search ResourceCls.youtubeTrack sampleLookup "abc"
        true true false).1 = Except.ok (SearchRes.track sampleTrack) ∧
    (Playable.search ResourceCls.youtubeTrack sampleLookup "abc"
        true false false).1 = Except.ok (SearchRes.list [sampleTrack]) :=
  claim_C4 ResourceCls.youtubeTrack "ytsearch" sampleLookup "abc"
    sampleTrack [] rfl rfl

/-- Claim C5: with useQuery true and partial false, the query passed to
the lookup collaborator is the class search tag, a colon and the
original query; the fixed tags of the three track variants are
ytsearch, ytmsearch and scsearch. -/
theorem claim_C5 (cls : ResourceCls) (tag : String)
    (getTracks : String → Option LookupRes) (query : String)
    (returnFirst : Bool) (htag : searchType cls = some tag) :
    (Playable.search cls getTracks query true returnFirst false).2 =
      [tag ++ ":" ++ query] ∧
    searchType ResourceCls.youtubeTrack = some "ytsearch" ∧
    searchType ResourceCls.youtubeMusicTrack = some "ytmsearch" ∧
    searchType ResourceCls.soundcloudTrack = some "scsearch" := by
  refine ⟨?_, rfl, rfl, rfl⟩
  simp [Playable.search, htag]

/-- Claim C5, witness at a concrete input. -/
theorem claim_C5_witness :
    (Playable.search ResourceCls.youtubeTrack (fun _ => none) "abc"
        true true false).2 = ["ytsearch" ++ ":" ++ "abc"] ∧
    searchType ResourceCls.youtubeTrack = some "ytsearch" ∧
    searchType ResourceCls.youtubeMusicTrack = some "ytmsearch" ∧
    searchType ResourceCls.soundcloudTrack = some "scsearch" :=
  claim_C5 ResourceCls.youtubeTrack "ytsearch" (fun _ => none) "abc" true rfl

/-- Claim C8: for every configuration, the connect request of a
Websocket built from it targets exactly ws://host:port with heartbeat
60 and exactly the three authentication headers: Authorization is the
password verbatim, User-Id is the user identity, Client-Name is the
fixed string Pylink. -/
theorem claim_C8 (host : String) (port : Int) (password userID : String) :
    Websocket.connectRequest (Websocket.init host port password userID) =
      { url := "ws://" ++ host ++ ":" ++ toString port,
        headers := [("Authorization", password), ("User-Id", userID),
                    ("Client-Name", "Pylink")],
        heartbeat := 60 } := rfl

/-- Claim C9: with useQuery false and partial false, search returns the
lookup result in full (None included) and the value of returnFirst has
no effect on the outcome. -/
theorem claim_C9 (cls : ResourceCls) (getTracks : String → Option LookupRes)
    (query : String) (returnFirst : Bool) :
    Playable.search cls getTracks query false returnFirst false =
      (Except.ok (optToSearchRes (getTracks query)), [query]) ∧
    Playable.search cls getTracks query false true false =
      Playable.search cls getTracks query false false false := by
  refine ⟨?_, rfl⟩
  cases h : getTracks query <;>
    simp [Playable.search, pickTracks, optToSearchRes, h]

/-- Claim C10: constructing a PartialResource and reading its cls,
query and search accessors returns the constructor arguments unchanged;
the embedding has no mutating operation on the structure, matching the
source class, whose only operations are the three read-only properties
and repr. -/
theorem claim_C10 (c : ResourceCls) (q : String) (b : Bool) :
    (PartialResource.mk c q b).cls = c ∧
    (PartialResource.mk c q b).query = q ∧
    (PartialResource.mk c q b).search = b :=
  ⟨rfl, rfl, rfl⟩

/-- Claim C6: decoding a well-formed statistics payload with every
field present yields a Stats snapshot whose fields equal the input
field-for-field, and decoding one without the frameStats object yields
-1 for all three frame counters and the other fields unchanged. -/
theorem claim_C6 (n : Node) (u p pp mr mu mf ma cc sl ll fs fd fn : JVal) :
    Stats.init n
      [("uptime", u), ("players", p), ("playingPlayers", pp),
       ("memory", JVal.obj [("reservable", mr), ("used", mu),
                            ("free", mf), ("allocated", ma)]),
       ("cpu", JVal.obj [("cores", cc), ("systemLoad", sl),
                         ("lavalinkLoad", ll)]),
       ("frameStats", JVal.obj [("sent", fs), ("deficit", fd),
                                ("nulled", fn)])] =
      Except.ok { node := n, uptime := u, players := p, playingPlayers := pp,
                  memoryReservable := mr, memoryUsed := mu, memoryFree := mf,
                  memoryAllocated := ma, cpuCores := cc, systemLoad := sl,
                  lavalinkLoad := ll, framesSent := fs, framesDeficit := fd,
                  framesNulled := fn } ∧
    Stats.init n
      [("uptime", u), ("players", p), ("playingPlayers", pp),
       ("memory", JVal.obj [("reservable", mr), ("used", mu),
                            ("free", mf), ("allocated", ma)]),
       ("cpu", JVal.obj [("cores", cc), ("systemLoad", sl),
                         ("lavalinkLoad", ll)])] =
      Except.ok { node := n, uptime := u, players := p, playingPlayers := pp,
                  memoryReservable := mr, memoryUsed := mu, memoryFree := mf,
                  memoryAllocated := ma, cpuCores := cc, systemLoad := sl,
                  lavalinkLoad := ll, framesSent := JVal.int (-1),
                  framesDeficit := JVal.int (-1),
                  framesNulled := JVal.int (-1) } :=
  ⟨rfl, rfl⟩

/-- Claim C7: a successful Stats decode implies every required field
was present in the payload (so a payload missing any of them fails
fast), with only the frameStats block defaulting per-field to -1 when
absent; a successful Track decode implies all eight required info
fields were present. -/
theorem claim_C7 (n : Node) (d : Jobj) (s : Stats) (tid : String)
    (info : Jobj) (t : Track) :
    (Stats.init n d = Except.ok s →
      statsRequired d ∧
      (jfind d "frameStats" = none →
        s.framesSent = JVal.int (-1) ∧ s.framesDeficit = JVal.int (-1) ∧
        s.framesNulled = JVal.int (-1)) ∧
      (∀ fsObj, jfind d "frameStats" = some (JVal.obj fsObj) →
        (jfind fsObj "sent" = none → s.framesSent = JVal.int (-1)) ∧
        (jfind fsObj "deficit" = none → s.framesDeficit = JVal.int (-1)) ∧
        (jfind fsObj "nulled" = none → s.framesNulled = JVal.int (-1)))) ∧
    (Track.init tid info = Except.ok t → trackRequired info) := by
  constructor
  · intro h
    unfold Stats.init at h
    obtain ⟨u, hu, h⟩ := exceptBind_ok h
    obtain ⟨p, hp, h⟩ := exceptBind_ok h
    obtain ⟨pp, hpp, h⟩ := exceptBind_ok h
    obtain ⟨mem, hmem, h⟩ := exceptBind_ok h
    obtain ⟨mr, hmr, h⟩ := exceptBind_ok h
    obtain ⟨mu, hmu, h⟩ := exceptBind_ok h
    obtain ⟨mf, hmf, h⟩ := exceptBind_ok h
    obtain ⟨ma, hma, h⟩ := exceptBind_ok h
    obtain ⟨cpu, hcpu, h⟩ := exceptBind_ok h
    obtain ⟨cc, hcc, h⟩ := exceptBind_ok h
    obtain ⟨sl, hsl, h⟩ := exceptBind_ok h
    obtain ⟨ll, hll, h⟩ := exceptBind_ok h
    obtain ⟨fsS, hfsS, h⟩ := exceptBind_ok h
    obtain ⟨fsD, hfsD, h⟩ := exceptBind_ok h
    obtain ⟨fsN, hfsN, h⟩ := exceptBind_ok h
    have hs : Stats.mk n u p pp mr mu mf ma cc sl ll fsS fsD fsN = s :=
      Except.ok.inj h
    subst hs
    obtain ⟨dm, hmemEq, hmr'⟩ := jvalGetItem_ok.mp hmr
    subst hmemEq
    obtain ⟨dc, hcpuEq, hcc'⟩ := jvalGetItem_ok.mp hcc
    subst hcpuEq
    refine ⟨⟨?_, ?_, ?_, ⟨dm, jGetItem_ok.mp hmem, ?_, ?_, ?_, ?_⟩,
      ⟨dc, jGetItem_ok.mp hcpu, ?_, ?_, ?_⟩⟩, ?_, ?_⟩
    · simp [jGetItem_ok.mp hu]
    · simp [jGetItem_ok.mp hp]
    · simp [jGetItem_ok.mp hpp]
    · simp [hmr']
    · simp [jvalGetItem_obj.mp hmu]
    · simp [jvalGetItem_obj.mp hmf]
    · simp [jvalGetItem_obj.mp hma]
    · simp [hcc']
    · simp [jvalGetItem_obj.mp hsl]
    · simp [jvalGetItem_obj.mp hll]
    · intro hfnone
      have hdef : jGetDefault d "frameStats" (JVal.obj []) = JVal.obj [] := by
        simp [jGetDefault, hfnone]
      rw [hdef] at hfsS hfsD hfsN
      simp [JVal.getDefault, jGetDefault, jfind] at hfsS hfsD hfsN
      exact ⟨hfsS.symm, hfsD.symm, hfsN.symm⟩
    · intro fsObj hfsome
      have hdef : jGetDefault d "frameStats" (JVal.obj []) = JVal.obj fsObj := by
        simp [jGetDefault, hfsome]
      rw [hdef] at hfsS hfsD hfsN
      refine ⟨?_, ?_, ?_⟩
      · intro hm
        simp [JVal.getDefault, jGetDefault, hm] at hfsS
        exact hfsS.symm
      · intro hm
        simp [JVal.getDefault, jGetDefault, hm] at hfsD
        exact hfsD.symm
      · intro hm
        simp [JVal.getDefault, jGetDefault, hm] at hfsN
        exact hfsN.symm
  · intro h
    unfold Track.init at h
    obtain ⟨v1, h1, h⟩ := exceptBind_ok h
    obtain ⟨v2, h2, h⟩ := exceptBind_ok h
    obtain ⟨v3, h3, h⟩ := exceptBind_ok h
    obtain ⟨v4, h4, h⟩ := exceptBind_ok h
    obtain ⟨v5, h5, h⟩ := exceptBind_ok h
    obtain ⟨v6, h6, h⟩ := exceptBind_ok h
    obtain ⟨v7, h7, h⟩ := exceptBind_ok h
    obtain ⟨v8, h8, h⟩ := exceptBind_ok h
    exact ⟨by simp [jGetItem_ok.mp h1], by simp [jGetItem_ok.mp h2],
      by simp [jGetItem_ok.mp h3], by simp [jGetItem_ok.mp h4],
      by simp [jGetItem_ok.mp h5], by simp [jGetItem_ok.mp h6],
      by simp [jGetItem_ok.mp h7], by simp [jGetItem_ok.mp h8]⟩

/-- Claim C7, witness: the decodes of the concrete payloads succeed and
the required-field conclusions hold for them. -/
theorem claim_C7_witness :
    statsRequired statsData0 ∧ trackRequired trackInfo0 :=
  ⟨((claim_C7 { nodeId := 0 } statsData0 stats0 "b64" trackInfo0 track0).1
      rfl).1,
   (claim_C7 { nodeId := 0 } statsData0 stats0 "b64" trackInfo0 track0).2 rfl⟩

end Lavapy
